import Mathlib

/-!
Shallow embedding of the gRPC localhost discovery core of
src/src-tauri/src/main.rs.

Network effects are modelled by environment oracles: for every (host, port)
the oracle fixes the outcome of each fallible step the code performs
(TCP connect with 100 ms deadline, endpoint parse, channel connect with
500 ms deadline, in-process queue send, reflection RPC with 1000 ms
deadline).  The Tauri commands become pure state transformers over
GrpcToolState; wall-clock reads (current_timestamp, elapsed time) are
passed in as parameters.
-/

namespace Unhinged

/-- Health status of a discovered endpoint (HealthStatus in main.rs). -/
inductive HealthStatus
  | healthy
  | unhealthy
  | unknown
deriving DecidableEq, Repr

/-- ServiceMetadata from main.rs: host, port, timestamps, status, latency. -/
structure ServiceMetadata where
  host : String
  port : Nat
  discovered_at : Nat
  last_health_check : Nat
  health_status : HealthStatus
  response_time_ms : Option Nat
deriving DecidableEq, Repr

/-- GrpcMethod from main.rs. -/
structure GrpcMethod where
  name : String
  input_type : String
  output_type : String
  client_streaming : Bool
  server_streaming : Bool
deriving DecidableEq, Repr

/-- GrpcService from main.rs: a named service with a method list. -/
structure GrpcService where
  name : String
  methods : List GrpcMethod
  metadata : ServiceMetadata
deriving DecidableEq, Repr

/-- LocalhostService from main.rs: one registry record per endpoint. -/
structure LocalhostService where
  host : String
  port : Nat
  is_grpc : Bool
  services : List GrpcService
  metadata : ServiceMetadata
deriving DecidableEq, Repr

/-- GrpcConnection from main.rs: the singleton active-connection record. -/
structure GrpcConnection where
  host : String
  port : Nat
  use_tls : Bool
  connected : Bool
deriving DecidableEq, Repr

/-- Default for GrpcConnection, as in the Default impl in main.rs. -/
def GrpcConnection.default : GrpcConnection :=
  { host := "localhost", port := 9090, use_tls := false, connected := false }

/-- Abstract stand-in for ServerReflectionClient over a channel: the code
creates it from the channel of the endpoint it connected to. -/
structure ReflClient where
  host : String
  port : Nat
  use_tls : Bool
deriving DecidableEq, Repr

/-- Abstract stand-in for a tonic transport Channel kept in the pool. -/
structure Channel where
  host : String
  port : Nat
  use_tls : Bool
deriving DecidableEq, Repr

/-- GrpcToolState from main.rs (the HashMaps modelled as association lists,
one entry per key). -/
structure GrpcToolState where
  connection : GrpcConnection
  services : List GrpcService
  client : Option ReflClient
  localhost_services : List (String × LocalhostService)
  connection_pool : List (String × Channel)
deriving DecidableEq, Repr

/-- One scan_results entry built by scan_localhost_services. -/
structure ScanResultEntry where
  endpoint : String
  status : String
  port : Nat
deriving DecidableEq, Repr

/-- The structured payloads the commands place in GrpcResponse.data. -/
inductive RespData
  | scanData (services : List (String × LocalhostService))
      (scan_results : List ScanResultEntry)
      (ports_scanned : Nat) (grpc_services_found : Nat)
  | connectData (endpoint : String) (tls : Bool)
  | servicesData (services : List GrpcService)
  | healthData (host : String) (port : Nat) (healthy : Bool)
      (response_time_ms : Nat)
deriving DecidableEq, Repr

/-- GrpcResponse from main.rs: the uniform command envelope. -/
structure GrpcResponse where
  success : Bool
  message : String
  data : Option RespData
deriving DecidableEq, Repr

/-- Outcome of one awaited fallible step wrapped in a deadline:
it can succeed, fail with an error message, or hit the deadline. -/
inductive IoOutcome
  | success
  | failure (msg : String)
  | timedOut
deriving DecidableEq, Repr

/-- Environment oracle for one (host, port) during a scan probe:
the outcome of each fallible step scan_port / is_grpc_service performs. -/
structure PortNet where
  tcp_connect : IoOutcome
  endpoint_valid : Bool
  channel_connect : IoOutcome
  mpsc_send_ok : Bool
  reflection_rpc : IoOutcome

/-- is_grpc_service from main.rs: parse the endpoint, connect the channel
under a 500 ms deadline, send one list-services request, and wait up to
1000 ms for the reflection RPC; every failure collapses to Ok false. -/
def is_grpc_service (net : String → Nat → PortNet) (host : String)
    (port : Nat) : Except String Bool :=
  let p := net host port
  if p.endpoint_valid then
    match p.channel_connect with
    | .success =>
      if p.mpsc_send_ok then
        match p.reflection_rpc with
        | .success => .ok true
        | _ => .ok false
      else .ok false
    | _ => .ok false
  else .ok false

/-- scan_port from main.rs: TCP connect with a 100 ms deadline, then
classify with is_grpc_service; closed, timed out, or classifier error all
collapse to Ok false. -/
def scan_port (net : String → Nat → PortNet) (host : String)
    (port : Nat) : Except String Bool :=
  let p := net host port
  match p.tcp_connect with
  | .success =>
    match is_grpc_service net host port with
    | .ok b => .ok b
    | .error _ => .ok false
  | _ => .ok false

/-- COMMON_GRPC_PORTS from main.rs: the hardcoded candidate port list. -/
def COMMON_GRPC_PORTS : List Nat :=
  [9090, 8080, 50051, 50052, 50053, 8081, 8082, 8083, 8084, 8085,
   9091, 9092, 9093, 9094, 9095, 3000, 3001, 3002, 4000, 4001,
   5000, 5001, 5002, 6000, 6001, 7000, 7001, 8000, 8001, 8002]

/-- The work done for one candidate port in the scan loop: when scan_port
reports gRPC, build the registry record and the scan_results entry. -/
def scanOnePort (net : String → Nat → PortNet) (now : Nat) (port : Nat) :
    Option (String × LocalhostService × ScanResultEntry) :=
  let host := "localhost"
  let endpoint := host ++ ":" ++ toString port
  match scan_port net host port with
  | .ok true =>
    let metadata : ServiceMetadata :=
      { host := host, port := port, discovered_at := now,
        last_health_check := now, health_status := .healthy,
        response_time_ms := none }
    some (endpoint,
      { host := host, port := port, is_grpc := true, services := [],
        metadata := metadata },
      { endpoint := endpoint, status := "grpc_detected", port := port })
  | _ => none

/-- scan_localhost_services from main.rs: probe every candidate port,
collect the detected gRPC endpoints, and overwrite the registry with the
freshly built map. -/
def scan_localhost_services (net : String → Nat → PortNet) (now : Nat)
    (st : GrpcToolState) : GrpcToolState × GrpcResponse :=
  let discovered := COMMON_GRPC_PORTS.filterMap
    (fun port => (scanOnePort net now port).map (fun r => (r.1, r.2.1)))
  let scan_results := COMMON_GRPC_PORTS.filterMap
    (fun port => (scanOnePort net now port).map (fun r => r.2.2))
  ({ st with localhost_services := discovered },
   { success := true,
     message := "Discovered " ++ toString discovered.length ++
       " gRPC services on localhost",
     data := some (.scanData discovered scan_results
       COMMON_GRPC_PORTS.length discovered.length) })

/-- Environment oracle for connect_grpc: whether the endpoint string
parses, and whether the unbounded channel connect succeeds, with the
error messages the failures carry. -/
structure ConnectNet where
  from_shared_ok : Bool
  from_shared_err : String
  connect_ok : Bool
  connect_err : String

/-- HashMap insert: one entry per key, new value replaces the old. -/
def poolInsert (k : String) (v : Channel) (m : List (String × Channel)) :
    List (String × Channel) :=
  (k, v) :: m.filter (fun e => e.1 ≠ k)

/-- connect_grpc from main.rs: build the endpoint, connect the channel;
on success store the client, pool the channel, and overwrite the active
connection; on failure report and change nothing. -/
def connect_grpc (cnet : String → Nat → Bool → ConnectNet) (host : String)
    (port : Nat) (use_tls : Bool) (st : GrpcToolState) :
    GrpcToolState × GrpcResponse :=
  let endpoint := (if use_tls then "https://" else "http://") ++ host ++
    ":" ++ toString port
  let c := cnet host port use_tls
  if c.from_shared_ok then
    if c.connect_ok then
      let pool_key := host ++ ":" ++ toString port
      ({ st with
         client := some { host := host, port := port, use_tls := use_tls },
         connection_pool := poolInsert pool_key
           { host := host, port := port, use_tls := use_tls }
           st.connection_pool,
         connection :=
           { host := host, port := port, use_tls := use_tls,
             connected := true } },
       { success := true,
         message := "Connected to gRPC server at " ++ endpoint,
         data := some (.connectData endpoint use_tls) })
    else
      (st,
       { success := false,
         message := "Failed to connect to gRPC server: " ++ c.connect_err,
         data := none })
  else
    (st,
     { success := false,
       message := "Invalid endpoint: " ++ c.from_shared_err,
       data := none })

/-- The message_response payloads a reflection stream can carry, as
discover_services distinguishes them. -/
inductive MessageResponse
  | listServicesResponse (names : List String)
  | other
deriving DecidableEq, Repr

/-- Environment oracle for discover_services: the queue send can fail, the
reflection RPC can fail, or it yields a stream of responses (each with an
optional message_response payload). -/
inductive DiscoverNet
  | sendFail
  | rpcErr (e : String)
  | rpcOk (stream : List (Option MessageResponse))
deriving Repr

/-- Whether a stream element is a list-services response. -/
def isListServicesResp : Option MessageResponse → Bool
  | some (.listServicesResponse _) => true
  | _ => false

/-- The while-let drain loop of discover_services: walk the stream until
the first list-services response, return its names, and stop; end of
stream or a stream error stops with nothing. -/
def firstListServices : List (Option MessageResponse) → Option (List String)
  | [] => none
  | some (.listServicesResponse names) :: _ => some names
  | _ :: rest => firstListServices rest

/-- discover_services from main.rs: with no active client report
not-connected; otherwise send one list-services request, drain the stream
for the first list-services response, build one GrpcService per returned
name with an empty method list, and store the list wholesale. -/
def discover_services (dnet : DiscoverNet) (now : Nat)
    (st : GrpcToolState) : GrpcToolState × GrpcResponse :=
  match st.client with
  | some _ =>
    match dnet with
    | .sendFail =>
      (st,
       { success := false,
         message := "Failed to send reflection request", data := none })
    | .rpcErr e =>
      (st,
       { success := false,
         message := "Failed to discover services: " ++ e, data := none })
    | .rpcOk stream =>
      let names := (firstListServices stream).getD []
      let services := names.map (fun n =>
        ({ name := n, methods := [],
           metadata :=
             { host := st.connection.host, port := st.connection.port,
               discovered_at := now, last_health_check := now,
               health_status := .healthy, response_time_ms := none } } :
         GrpcService))
      ({ st with services := services },
       { success := true,
         message := "Discovered " ++ toString services.length ++ " services",
         data := some (.servicesData services) })
  | none =>
    (st,
     { success := false,
       message := "Not connected to gRPC server", data := none })

/-- disconnect_grpc from main.rs: drop the client, clear the connected
flag (host, port, tls left stale), empty the service list, and clear the
whole connection pool. -/
def disconnect_grpc (st : GrpcToolState) : GrpcToolState × GrpcResponse :=
  ({ st with
     client := none,
     connection := { st.connection with connected := false },
     services := [],
     connection_pool := [] },
   { success := true,
     message := "Disconnected from gRPC server", data := none })

/-- The get_mut update of health_check_service: when the endpoint key is
present, refresh its metadata in place; otherwise leave the map alone. -/
def updateHealth (endpoint : String) (now : Nat) (is_healthy : Bool)
    (rt : Nat) :
    List (String × LocalhostService) → List (String × LocalhostService)
  | [] => []
  | (k, s) :: rest =>
    if k = endpoint then
      (k, { s with metadata :=
        { s.metadata with
          last_health_check := now,
          health_status := if is_healthy then .healthy else .unhealthy,
          response_time_ms := some rt } }) :: rest
    else (k, s) :: updateHealth endpoint now is_healthy rt rest

/-- health_check_service from main.rs: re-run scan_port, measure elapsed
time (passed in as rt), update the matching registry entry when one
exists, and report the probe result as the envelope's success flag. -/
def health_check_service (net : String → Nat → PortNet) (now rt : Nat)
    (host : String) (port : Nat) (st : GrpcToolState) :
    GrpcToolState × GrpcResponse :=
  match scan_port net host port with
  | .ok is_healthy =>
    let endpoint := host ++ ":" ++ toString port
    ({ st with localhost_services :=
        updateHealth endpoint now is_healthy rt st.localhost_services },
     { success := is_healthy,
       message :=
         if is_healthy then
           "Service at " ++ host ++ ":" ++ toString port ++
             " is healthy (" ++ toString rt ++ "ms)"
         else
           "Service at " ++ host ++ ":" ++ toString port ++ " is unhealthy",
       data := some (.healthData host port is_healthy rt) })
  | .error e =>
    (st,
     { success := false,
       message := "Health check failed: " ++ e, data := none })

/-- get_localhost_services from main.rs: read-only registry snapshot. -/
def get_localhost_services (st : GrpcToolState) : List LocalhostService :=
  st.localhost_services.map Prod.snd

/-- get_connection_status from main.rs: read-only connection snapshot. -/
def get_connection_status (st : GrpcToolState) : GrpcConnection :=
  st.connection

/-- get_services from main.rs: read-only active service list. -/
def get_services (st : GrpcToolState) : List GrpcService :=
  st.services

/-- The state built in main() before the app runs. -/
def initState : GrpcToolState :=
  { connection := GrpcConnection.default, services := [], client := none,
    localhost_services := [], connection_pool := [] }

/-- States reachable from the initial state by any sequence of exposed
commands under any environments and arguments (the read-only getters do
not change state). -/
inductive Reachable : GrpcToolState → Prop
  | init : Reachable initState
  | scan (net : String → Nat → PortNet) (now : Nat) {st : GrpcToolState} :
      Reachable st → Reachable (scan_localhost_services net now st).1
  | connect (cnet : String → Nat → Bool → ConnectNet) (host : String)
      (port : Nat) (use_tls : Bool) {st : GrpcToolState} :
      Reachable st → Reachable (connect_grpc cnet host port use_tls st).1
  | discover (dnet : DiscoverNet) (now : Nat) {st : GrpcToolState} :
      Reachable st → Reachable (discover_services dnet now st).1
  | disconnect {st : GrpcToolState} :
      Reachable st → Reachable (disconnect_grpc st).1
  | health (net : String → Nat → PortNet) (now rt : Nat) (host : String)
      (port : Nat) {st : GrpcToolState} :
      Reachable st → Reachable (health_check_service net now rt host port st).1

/-- Whether an Except result is Ok true (used to phrase detection). -/
def okTrue : Except String Bool → Bool
  | .ok true => true
  | _ => false

/-- The scan_results list carried in a scan response payload. -/
def scanResultsOf (r : GrpcResponse) : List ScanResultEntry :=
  match r.data with
  | some (.scanData _ srs _ _) => srs
  | _ => []

/-- A concrete environment in which every port is closed (TCP connect
hits the deadline everywhere). -/
def closedNet : String → Nat → PortNet :=
  fun _ _ =>
    { tcp_connect := .timedOut, endpoint_valid := true,
      channel_connect := .timedOut, mpsc_send_ok := true,
      reflection_rpc := .timedOut }

/-- A concrete connect environment in which everything succeeds. -/
def allOkCnet : String → Nat → Bool → ConnectNet :=
  fun _ _ _ =>
    { from_shared_ok := true, from_shared_err := "",
      connect_ok := true, connect_err := "" }

/-- A concrete connect environment in which the transport connect fails. -/
def failCnet : String → Nat → Bool → ConnectNet :=
  fun _ _ _ =>
    { from_shared_ok := true, from_shared_err := "",
      connect_ok := false, connect_err := "connection refused" }

/-- A state with an active reflection client, for concrete runs. -/
def connectedState : GrpcToolState :=
  { initState with
    client := some { host := "localhost", port := 9090, use_tls := false } }

/-- Characterization of is_grpc_service: it always returns Ok, and the
boolean is true exactly when every handshake step succeeds. -/
theorem is_grpc_service_spec (net : String → Nat → PortNet) (host : String)
    (port : Nat) :
    is_grpc_service net host port =
      .ok ((net host port).endpoint_valid &&
           (decide ((net host port).channel_connect = .success) &&
            ((net host port).mpsc_send_ok &&
             decide ((net host port).reflection_rpc = .success)))) := by
  rcases hp : net host port with ⟨tcp, ev, cc, send, rr⟩
  simp only [is_grpc_service, hp]
  cases ev <;> cases cc <;> cases send <;> cases rr <;> simp

/-- Characterization of scan_port: it always returns Ok, and the boolean
is true exactly when every probe and handshake step succeeds. -/
theorem scan_port_spec (net : String → Nat → PortNet) (host : String)
    (port : Nat) :
    scan_port net host port =
      .ok (decide ((net host port).tcp_connect = .success) &&
           ((net host port).endpoint_valid &&
            (decide ((net host port).channel_connect = .success) &&
             ((net host port).mpsc_send_ok &&
              decide ((net host port).reflection_rpc = .success))))) := by
  rcases hp : net host port with ⟨tcp, ev, cc, send, rr⟩
  simp only [scan_port, is_grpc_service, hp]
  cases tcp <;> cases ev <;> cases cc <;> cases send <;> cases rr <;> simp

/-- scan_port never surfaces an error value. -/
theorem scan_port_isOk (net : String → Nat → PortNet) (host : String)
    (port : Nat) : ∃ b, scan_port net host port = .ok b :=
  ⟨_, scan_port_spec net host port⟩

/-- C2: every connect failure, handshake failure, or timeout in scan
classification makes scan_port and is_grpc_service return Ok false
rather than an error: both always return Ok, and the result is true only
when the TCP connect, endpoint parse, channel connect, request send, and
reflection RPC all succeed — an open port with a failing reflection
handshake yields Ok false. -/
theorem classification_failures_collapse_to_ok_false
    (net : String → Nat → PortNet) (host : String) (port : Nat) :
    is_grpc_service net host port =
      .ok ((net host port).endpoint_valid &&
           (decide ((net host port).channel_connect = .success) &&
            ((net host port).mpsc_send_ok &&
             decide ((net host port).reflection_rpc = .success)))) ∧
    scan_port net host port =
      .ok (decide ((net host port).tcp_connect = .success) &&
           ((net host port).endpoint_valid &&
            (decide ((net host port).channel_connect = .success) &&
             ((net host port).mpsc_send_ok &&
              decide ((net host port).reflection_rpc = .success))))) :=
  ⟨is_grpc_service_spec net host port, scan_port_spec net host port⟩

/-- C5: disconnect_grpc drops the reflection client, clears only the
connected flag of the active connection (host, port, tls stay stale),
empties the active service list, clears the whole connection pool, and
reports success. -/
theorem disconnect_clears_client_flag_services_pool (st : GrpcToolState) :
    (disconnect_grpc st).1.client = none ∧
    (disconnect_grpc st).1.connection.connected = false ∧
    (disconnect_grpc st).1.connection.host = st.connection.host ∧
    (disconnect_grpc st).1.connection.port = st.connection.port ∧
    (disconnect_grpc st).1.connection.use_tls = st.connection.use_tls ∧
    (disconnect_grpc st).1.services = [] ∧
    (disconnect_grpc st).1.connection_pool = [] ∧
    (disconnect_grpc st).1.localhost_services = st.localhost_services ∧
    (disconnect_grpc st).2.success = true :=
  ⟨rfl, rfl, rfl, rfl, rfl, rfl, rfl, rfl, rfl⟩

/-- C10: with no reflection client, discover_services reports
not-connected with success false and changes no state. -/
theorem discover_not_connected_is_noop (dnet : DiscoverNet) (now : Nat)
    (st : GrpcToolState) (h : st.client = none) :
    (discover_services dnet now st).1 = st ∧
    (discover_services dnet now st).2 =
      { success := false, message := "Not connected to gRPC server",
        data := none } := by
  simp [discover_services, h]

/-- Concrete run of the not-connected branch of discover_services. -/
theorem discover_not_connected_is_noop_witness :
    (discover_services (.rpcOk []) 0 initState).1 = initState ∧
    (discover_services (.rpcOk []) 0 initState).2 =
      { success := false, message := "Not connected to gRPC server",
        data := none } :=
  discover_not_connected_is_noop (.rpcOk []) 0 initState rfl

/-- connect_grpc on an endpoint string that fails to parse: state kept,
failure reported with the parse error. -/
theorem connect_grpc_invalid (cnet : String → Nat → Bool → ConnectNet)
    (host : String) (port : Nat) (use_tls : Bool) (st : GrpcToolState)
    (h : (cnet host port use_tls).from_shared_ok = false) :
    connect_grpc cnet host port use_tls st =
      (st,
       { success := false,
         message := "Invalid endpoint: " ++
           (cnet host port use_tls).from_shared_err,
         data := none }) := by
  simp [connect_grpc, h]

/-- connect_grpc when the transport connect fails: state kept, failure
reported with the transport error. -/
theorem connect_grpc_conn_failed (cnet : String → Nat → Bool → ConnectNet)
    (host : String) (port : Nat) (use_tls : Bool) (st : GrpcToolState)
    (hf : (cnet host port use_tls).from_shared_ok = true)
    (hc : (cnet host port use_tls).connect_ok = false) :
    connect_grpc cnet host port use_tls st =
      (st,
       { success := false,
         message := "Failed to connect to gRPC server: " ++
           (cnet host port use_tls).connect_err,
         data := none }) := by
  simp [connect_grpc, hf, hc]

/-- connect_grpc when everything succeeds: client stored, channel pooled,
active connection overwritten with connected true. -/
theorem connect_grpc_success_state (cnet : String → Nat → Bool → ConnectNet)
    (host : String) (port : Nat) (use_tls : Bool) (st : GrpcToolState)
    (hf : (cnet host port use_tls).from_shared_ok = true)
    (hc : (cnet host port use_tls).connect_ok = true) :
    (connect_grpc cnet host port use_tls st).1 =
      { st with
        client := some { host := host, port := port, use_tls := use_tls },
        connection_pool := poolInsert (host ++ ":" ++ toString port)
          { host := host, port := port, use_tls := use_tls }
          st.connection_pool,
        connection :=
          { host := host, port := port, use_tls := use_tls,
            connected := true } } := by
  simp [connect_grpc, hf, hc]

/-- C4: when connect_grpc fails (endpoint parse failure or transport
connect failure) it returns success false with a non-empty message that
carries the underlying error, and the whole state — active connection,
client, pool, service list, registry — is exactly as before. -/
theorem connect_failure_reports_and_preserves_state
    (cnet : String → Nat → Bool → ConnectNet) (host : String) (port : Nat)
    (use_tls : Bool) (st : GrpcToolState)
    (h : (cnet host port use_tls).from_shared_ok = false ∨
         (cnet host port use_tls).connect_ok = false) :
    (connect_grpc cnet host port use_tls st).1 = st ∧
    (connect_grpc cnet host port use_tls st).2.success = false ∧
    (connect_grpc cnet host port use_tls st).2.message ≠ "" ∧
    ((cnet host port use_tls).from_shared_ok = false →
      (connect_grpc cnet host port use_tls st).2.message =
        "Invalid endpoint: " ++ (cnet host port use_tls).from_shared_err) ∧
    ((cnet host port use_tls).from_shared_ok = true →
      (connect_grpc cnet host port use_tls st).2.message =
        "Failed to connect to gRPC server: " ++
          (cnet host port use_tls).connect_err) := by
  cases hf : (cnet host port use_tls).from_shared_ok with
  | false =>
    rw [connect_grpc_invalid cnet host port use_tls st hf]
    refine ⟨rfl, rfl, ?_, fun _ => rfl, ?_⟩
    · intro he
      have hd := congrArg String.data he
      rw [String.data_append] at hd
      simp at hd
    · intro hx
      exact Bool.noConfusion hx
  | true =>
    have hco : (cnet host port use_tls).connect_ok = false := by
      rcases h with h | h
      · rw [h] at hf
        exact Bool.noConfusion hf
      · exact h
    rw [connect_grpc_conn_failed cnet host port use_tls st hf hco]
    refine ⟨rfl, rfl, ?_, ?_, fun _ => rfl⟩
    · intro he
      have hd := congrArg String.data he
      rw [String.data_append] at hd
      simp at hd
    · intro hx
      exact Bool.noConfusion hx

/-- Concrete run of connect_grpc against a refusing endpoint. -/
theorem connect_failure_reports_and_preserves_state_witness :
    (connect_grpc failCnet "localhost" 1 false initState).1 = initState ∧
    (connect_grpc failCnet "localhost" 1 false initState).2.success = false ∧
    (connect_grpc failCnet "localhost" 1 false initState).2.message ≠ "" ∧
    ((failCnet "localhost" 1 false).from_shared_ok = false →
      (connect_grpc failCnet "localhost" 1 false initState).2.message =
        "Invalid endpoint: " ++ (failCnet "localhost" 1 false).from_shared_err) ∧
    ((failCnet "localhost" 1 false).from_shared_ok = true →
      (connect_grpc failCnet "localhost" 1 false initState).2.message =
        "Failed to connect to gRPC server: " ++
          (failCnet "localhost" 1 false).connect_err) :=
  connect_failure_reports_and_preserves_state failCnet "localhost" 1 false
    initState (Or.inr rfl)

/-- A scan touches only the registry: connection and client survive. -/
theorem scan_preserves_connection_client (net : String → Nat → PortNet)
    (now : Nat) (st : GrpcToolState) :
    (scan_localhost_services net now st).1.connection = st.connection ∧
    (scan_localhost_services net now st).1.client = st.client :=
  ⟨rfl, rfl⟩

/-- discover_services never touches the connection record or the client
slot. -/
theorem discover_preserves_connection_client (dnet : DiscoverNet)
    (now : Nat) (st : GrpcToolState) :
    (discover_services dnet now st).1.connection = st.connection ∧
    (discover_services dnet now st).1.client = st.client := by
  cases dnet <;> rcases hc : st.client with _ | c <;>
    simp [discover_services, hc]

/-- A health check touches only the registry: connection and client
survive. -/
theorem health_preserves_connection_client (net : String → Nat → PortNet)
    (now rt : Nat) (host : String) (port : Nat) (st : GrpcToolState) :
    (health_check_service net now rt host port st).1.connection =
      st.connection ∧
    (health_check_service net now rt host port st).1.client = st.client := by
  rcases hsp : scan_port net host port with e | b <;>
    simp [health_check_service, hsp]

/-- C8: in every state reachable by any sequence of the exposed commands,
a connected active connection implies the reflection client slot holds a
client — the flag and the slot are only ever updated together. -/
theorem connected_implies_reflection_client (st : GrpcToolState)
    (h : Reachable st) :
    st.connection.connected = true → st.client.isSome = true := by
  induction h with
  | init =>
    intro hc
    exact Bool.noConfusion hc
  | scan net now hr ih =>
    exact ih
  | connect cnet host port use_tls hr ih =>
    rename_i st
    intro hc
    cases hf : (cnet host port use_tls).from_shared_ok with
    | false =>
      have heq := connect_grpc_invalid cnet host port use_tls st hf
      rw [heq] at hc ⊢
      exact ih hc
    | true =>
      cases hco : (cnet host port use_tls).connect_ok with
      | false =>
        have heq := connect_grpc_conn_failed cnet host port use_tls st hf hco
        rw [heq] at hc ⊢
        exact ih hc
      | true =>
        rw [connect_grpc_success_state cnet host port use_tls st hf hco]
        rfl
  | discover dnet now hr ih =>
    rename_i st
    intro hc
    have hfr := discover_preserves_connection_client dnet now st
    rw [hfr.1] at hc
    rw [hfr.2]
    exact ih hc
  | disconnect hr ih =>
    intro hc
    exact Bool.noConfusion hc
  | health net now rt host port hr ih =>
    rename_i st
    intro hc
    have hfr := health_preserves_connection_client net now rt host port st
    rw [hfr.1] at hc
    rw [hfr.2]
    exact ih hc

/-- Concrete run: after a successful connect from the initial state, the
invariant instantiates to a state whose flag is set and yields a client. -/
theorem connected_implies_reflection_client_witness :
    ((connect_grpc allOkCnet "localhost" 9090 false initState).1.client).isSome
      = true :=
  connected_implies_reflection_client _
    (Reachable.connect allOkCnet "localhost" 9090 false Reachable.init) rfl

/-- When the endpoint key is absent, the get_mut update of the registry
is the identity. -/
theorem updateHealth_of_absent (endpoint : String) (now : Nat) (hb : Bool)
    (rt : Nat) (l : List (String × LocalhostService))
    (h : l.lookup endpoint = none) :
    updateHealth endpoint now hb rt l = l := by
  induction l with
  | nil => rfl
  | cons kv rest ihl =>
    obtain ⟨k, v⟩ := kv
    have hstep : List.lookup endpoint ((k, v) :: rest) =
        (match endpoint == k with
         | true => some v
         | false => rest.lookup endpoint) := rfl
    by_cases hk : k = endpoint
    · subst hk
      have hself : (k == k) = true := beq_self_eq_true k
      rw [hstep, hself] at h
      exact Option.noConfusion h
    · have hbeq : (endpoint == k) = false := by
        simp
        exact fun he => hk he.symm
      rw [hstep, hbeq] at h
      have h2 : rest.lookup endpoint = none := h
      simp [updateHealth, hk, ihl h2]

/-- C7: a health check on an endpoint whose key is absent from the
registry still runs the probe and returns the health result and latency,
but the state — in particular the registry — is left unchanged, and no
entry is inserted. -/
theorem health_check_absent_endpoint_no_insert
    (net : String → Nat → PortNet) (now rt : Nat) (host : String)
    (port : Nat) (st : GrpcToolState)
    (h : st.localhost_services.lookup (host ++ ":" ++ toString port) = none) :
    (health_check_service net now rt host port st).1 = st ∧
    ∃ b, (health_check_service net now rt host port st).2 =
      { success := b,
        message :=
          if b then
            "Service at " ++ host ++ ":" ++ toString port ++
              " is healthy (" ++ toString rt ++ "ms)"
          else
            "Service at " ++ host ++ ":" ++ toString port ++ " is unhealthy",
        data := some (.healthData host port b rt) } := by
  obtain ⟨b, hsp⟩ := scan_port_isOk net host port
  refine ⟨?_, b, ?_⟩
  · simp only [health_check_service, hsp]
    rw [updateHealth_of_absent _ _ _ _ _ h]
  · simp only [health_check_service, hsp]

/-- Concrete run of a health check against a closed port with an empty
registry. -/
theorem health_check_absent_endpoint_no_insert_witness :
    (health_check_service closedNet 0 5 "localhost" 9090 initState).1 =
      initState ∧
    ∃ b, (health_check_service closedNet 0 5 "localhost" 9090 initState).2 =
      { success := b,
        message :=
          if b then
            "Service at " ++ "localhost" ++ ":" ++ toString 9090 ++
              " is healthy (" ++ toString 5 ++ "ms)"
          else
            "Service at " ++ "localhost" ++ ":" ++ toString 9090 ++
              " is unhealthy",
        data := some (.healthData "localhost" 9090 b 5) } :=
  health_check_absent_endpoint_no_insert closedNet 0 5 "localhost" 9090
    initState rfl

/-- C9: whenever the probe completes with Ok b, the success flag of the
health check envelope is exactly b — an unhealthy endpoint yields
success false even though the check itself ran. -/
theorem health_success_equals_probe_result (net : String → Nat → PortNet)
    (now rt : Nat) (host : String) (port : Nat) (st : GrpcToolState)
    (b : Bool) (h : scan_port net host port = .ok b) :
    (health_check_service net now rt host port st).2.success = b := by
  simp [health_check_service, h]

/-- Concrete run: against a closed port the probe completes with Ok
false and the envelope reports success false. -/
theorem health_success_equals_probe_result_witness :
    (health_check_service closedNet 0 5 "localhost" 9090 initState).2.success
      = false :=
  health_success_equals_probe_result closedNet 0 5 "localhost" 9090 initState
    false rfl

/-- Every registry record or scan entry the scan loop emits for a port
carries that port and the localhost endpoint string, and only when the
probe classified the port as gRPC. -/
theorem scanOnePort_shape (net : String → Nat → PortNet) (now port : Nat)
    (r : String × LocalhostService × ScanResultEntry)
    (h : scanOnePort net now port = some r) :
    r.1 = "localhost:" ++ toString port ∧
    r.2.1.port = port ∧ r.2.1.is_grpc = true ∧
    r.2.2.endpoint = "localhost:" ++ toString port ∧ r.2.2.port = port ∧
    scan_port net "localhost" port = .ok true := by
  rcases hsp : scan_port net "localhost" port with e | b
  · simp only [scanOnePort, hsp] at h
    cases h
  · simp only [scanOnePort, hsp] at h
    cases b
    · cases h
    · cases h
      exact ⟨rfl, rfl, rfl, rfl, rfl, rfl⟩

/-- C1: every endpoint a scan reports — in the registry it stores and in
the scan_results payload — has the form localhost:p with p drawn from
COMMON_GRPC_PORTS; ports outside the candidate list are never reported. -/
theorem scan_reports_only_candidate_ports (net : String → Nat → PortNet)
    (now : Nat) (st : GrpcToolState) :
    ((scan_localhost_services net now st).1.localhost_services.all
      (fun kv => COMMON_GRPC_PORTS.any
        (fun p => kv.1 == "localhost:" ++ toString p && kv.2.port == p)))
      = true ∧
    ((scanResultsOf (scan_localhost_services net now st).2).all
      (fun sr => COMMON_GRPC_PORTS.any
        (fun p => sr.endpoint == "localhost:" ++ toString p && sr.port == p)))
      = true := by
  constructor
  · rw [List.all_eq_true]
    intro kv hkv
    have hkv2 : kv ∈ COMMON_GRPC_PORTS.filterMap
        (fun port => (scanOnePort net now port).map (fun r => (r.1, r.2.1))) :=
      hkv
    rw [List.mem_filterMap] at hkv2
    obtain ⟨port, hp, hf⟩ := hkv2
    rcases ho : scanOnePort net now port with _ | r
    · rw [ho] at hf
      cases hf
    · rw [ho] at hf
      have hs := scanOnePort_shape net now port r ho
      rw [List.any_eq_true]
      refine ⟨port, hp, ?_⟩
      have hkveq : (r.1, r.2.1) = kv := by
        simpa using hf
      rw [← hkveq]
      simp [hs.1, hs.2.1]
  · rw [List.all_eq_true]
    intro sr hsr
    have hsr2 : sr ∈ COMMON_GRPC_PORTS.filterMap
        (fun port => (scanOnePort net now port).map (fun r => r.2.2)) :=
      hsr
    rw [List.mem_filterMap] at hsr2
    obtain ⟨port, hp, hf⟩ := hsr2
    rcases ho : scanOnePort net now port with _ | r
    · rw [ho] at hf
      cases hf
    · rw [ho] at hf
      have hs := scanOnePort_shape net now port r ho
      rw [List.any_eq_true]
      refine ⟨port, hp, ?_⟩
      have hsreq : r.2.2 = sr := by
        simpa using hf
      rw [← hsreq]
      simp [hs.2.2.2.1, hs.2.2.2.2.1]

/-- C3: a scan replaces the registry wholesale: the new registry does not
depend on the previous registry in any way, every stored record was
detected as gRPC in this pass, and every port detected as gRPC in this
pass is stored — no merging with old entries occurs. -/
theorem scan_replaces_registry_wholesale (net : String → Nat → PortNet)
    (now : Nat) (st1 st2 : GrpcToolState) :
    (scan_localhost_services net now st1).1.localhost_services =
      (scan_localhost_services net now st2).1.localhost_services ∧
    ((scan_localhost_services net now st1).1.localhost_services.all
      (fun kv => kv.2.is_grpc && okTrue (scan_port net "localhost" kv.2.port)))
      = true ∧
    (COMMON_GRPC_PORTS.all (fun p =>
      !okTrue (scan_port net "localhost" p) ||
      ((scan_localhost_services net now st1).1.localhost_services.any
        (fun kv => kv.1 == "localhost:" ++ toString p)))) = true := by
  refine ⟨rfl, ?_, ?_⟩
  · rw [List.all_eq_true]
    intro kv hkv
    have hkv2 : kv ∈ COMMON_GRPC_PORTS.filterMap
        (fun port => (scanOnePort net now port).map (fun r => (r.1, r.2.1))) :=
      hkv
    rw [List.mem_filterMap] at hkv2
    obtain ⟨port, hp, hf⟩ := hkv2
    rcases ho : scanOnePort net now port with _ | r
    · rw [ho] at hf
      cases hf
    · rw [ho] at hf
      have hs := scanOnePort_shape net now port r ho
      have hkveq : (r.1, r.2.1) = kv := by
        simpa using hf
      rw [← hkveq]
      simp [hs.2.1, hs.2.2.1, hs.2.2.2.2.2, okTrue]
  · rw [List.all_eq_true]
    intro p hp
    cases hok : okTrue (scan_port net "localhost" p) with
    | false => simp [hok]
    | true =>
      have hsp : scan_port net "localhost" p = .ok true := by
        rcases hspx : scan_port net "localhost" p with e | b
        · rw [hspx] at hok
          simp [okTrue] at hok
        · rw [hspx] at hok
          cases b
          · simp [okTrue] at hok
          · rfl
      simp only [hok, Bool.not_true, Bool.false_or]
      rw [List.any_eq_true]
      refine ⟨("localhost:" ++ toString p,
        { host := "localhost", port := p, is_grpc := true, services := [],
          metadata :=
            { host := "localhost", port := p, discovered_at := now,
              last_health_check := now, health_status := .healthy,
              response_time_ms := none } }), ?_, ?_⟩
      · show _ ∈ COMMON_GRPC_PORTS.filterMap
          (fun port => (scanOnePort net now port).map (fun r => (r.1, r.2.1)))
        rw [List.mem_filterMap]
        refine ⟨p, hp, ?_⟩
        simp [scanOnePort, hsp]
      · simp

/-- The drain loop returns the payload of the first list-services
response, skipping earlier non-list responses; later stream elements
never matter. -/
theorem firstListServices_skips_non_list
    (pre post : List (Option MessageResponse)) (names : List String)
    (hpre : pre.all (fun m => !isListServicesResp m) = true) :
    firstListServices (pre ++ some (.listServicesResponse names) :: post) =
      some names := by
  induction pre with
  | nil => rfl
  | cons m rest ihp =>
    simp only [List.all_cons, Bool.and_eq_true] at hpre
    obtain ⟨h1, h2⟩ := hpre
    cases m with
    | none => exact ihp h2
    | some mr =>
      cases mr with
      | listServicesResponse ns => simp [isListServicesResp] at h1
      | other => exact ihp h2

/-- C6: when discover_services succeeds on an active connection, the
stored and returned service list has one GrpcService per entry of the
first list-services response in the stream, carrying that entry's name
and an empty method list; stream messages after that response do not
contribute (the conclusion is independent of post). -/
theorem discover_uses_first_list_services_response (now : Nat)
    (st : GrpcToolState) (c : ReflClient)
    (pre post : List (Option MessageResponse)) (names : List String)
    (hc : st.client = some c)
    (hpre : pre.all (fun m => !isListServicesResp m) = true) :
    (discover_services
        (.rpcOk (pre ++ some (.listServicesResponse names) :: post))
        now st).1.services
      = names.map (fun n =>
          ({ name := n, methods := [],
             metadata :=
               { host := st.connection.host, port := st.connection.port,
                 discovered_at := now, last_health_check := now,
                 health_status := .healthy, response_time_ms := none } } :
           GrpcService)) ∧
    (discover_services
        (.rpcOk (pre ++ some (.listServicesResponse names) :: post))
        now st).2.success = true ∧
    (discover_services
        (.rpcOk (pre ++ some (.listServicesResponse names) :: post))
        now st).2.data
      = some (.servicesData (names.map (fun n =>
          ({ name := n, methods := [],
             metadata :=
               { host := st.connection.host, port := st.connection.port,
                 discovered_at := now, last_health_check := now,
                 health_status := .healthy, response_time_ms := none } } :
           GrpcService)))) := by
  have hfl := firstListServices_skips_non_list pre post names hpre
  simp [discover_services, hc, hfl]

/-- Concrete run of discovery on a stream with a leading unrelated
response, two declared services, and a trailing list response that is
ignored. -/
theorem discover_uses_first_list_services_response_witness :
    (discover_services
        (.rpcOk ([some .other, none] ++
          some (.listServicesResponse ["pkg.A", "pkg.B"]) ::
            [some (.listServicesResponse ["zzz"])]))
        7 connectedState).1.services.map GrpcService.name
      = ["pkg.A", "pkg.B"] := by
  have h := discover_uses_first_list_services_response 7 connectedState
    { host := "localhost", port := 9090, use_tls := false }
    [some .other, none] [some (.listServicesResponse ["zzz"])]
    ["pkg.A", "pkg.B"] rfl rfl
  rw [h.1]
  rfl

end Unhinged
